import Mathlib

/-!
Shallow embedding of the course-enquiry assistant in `app.py`.

The external collaborators (the sentence-transformer encoder, the cosine
similarity of two float vectors, and the hosted generative model) are
modelled as function parameters: `encode : String → List ℚ` stands for
`sentence_model.encode`, `cos : List ℚ → List ℚ → ℚ` for
`cosine_similarity(...)[0][0]`, and `generate : String → Except String String`
for `model.generate_content` (`Except.error e` models the call raising an
exception with text `e`).  Python dicts are modelled as association lists
with Python's insertion-order semantics, Python's stable
`sorted(..., reverse=True)` on `(score, name)` tuples is modelled by the
stable `List.insertionSort` under the reverse lexicographic order `pairGe`,
and `str.strip()` is modelled by the structural `strip` below.
-/

namespace App

/-- A course record from `data/courses.json`: `{name, description, instructor, duration}`. -/
structure Course where
  name : String
  description : String
  instructor : String
  duration : String
deriving DecidableEq, Repr

/-- An instructor record from `data/instructors.json`: `{name, bio}`. -/
structure Instructor where
  name : String
  bio : String
deriving DecidableEq, Repr

/-- A message of a conversation history: `{"role": ..., "content": ...}`. -/
structure Message where
  role : String
  content : String
deriving DecidableEq, Repr

/-- A translation record stored by `/api/translate`:
`{"original": ..., "translation": ..., "language": ...}`. -/
structure TranslationRecord where
  original : String
  translation : String
  language : String
deriving DecidableEq, Repr

/-- Python dict lookup `d[k]` / membership `k in d`, on an association list in
insertion order (first matching key wins; keys are unique by construction). -/
def dictGet {α : Type} : List (String × α) → String → Option α
  | [], _ => none
  | (k2, v) :: rest, k => if k2 = k then some v else dictGet rest k

/-- Python dict assignment `d[k] = v`: an existing key keeps its position and
gets the new value, a new key is appended at the end. -/
def dictSet {α : Type} : List (String × α) → String → α → List (String × α)
  | [], k, v => [(k, v)]
  | (k2, v2) :: rest, k, v =>
      if k2 = k then (k, v) :: rest else (k2, v2) :: dictSet rest k v

/-- Building a Python dict by inserting key/value pairs left to right, as the
dict comprehensions over `courses` and `instructors` do. -/
def buildDict {α : Type} (items : List (String × α)) : List (String × α) :=
  items.foldl (fun d p => dictSet d p.1 p.2) []

/-- Python's `str.strip()`: the string with leading and trailing whitespace
removed, written structurally over the character list so it evaluates. -/
def strip (s : String) : String :=
  ⟨((s.data.dropWhile Char.isWhitespace).reverse.dropWhile Char.isWhitespace).reverse⟩

/-- The text embedded for a course: `course['name'] + " " + course['description']`. -/
def courseText (c : Course) : String := c.name ++ " " ++ c.description

/-- The text embedded for an instructor: `instructor['name'] + " " + instructor['bio']`. -/
def instructorText (i : Instructor) : String := i.name ++ " " ++ i.bio

/-- The precomputed dict `course_embeddings`, keyed by course name. -/
def course_embeddings (encode : String → List ℚ) (courses : List Course) :
    List (String × List ℚ) :=
  buildDict (courses.map fun c => (c.name, encode (courseText c)))

/-- The precomputed dict `instructor_embeddings`, keyed by instructor name. -/
def instructor_embeddings (encode : String → List ℚ) (instructors : List Instructor) :
    List (String × List ℚ) :=
  buildDict (instructors.map fun i => (i.name, encode (instructorText i)))

/-- The `course_scores` / `instructor_scores` list: one `(similarity, name)`
pair per entry of the embeddings dict, in dict order. -/
def scoreList (cos : List ℚ → List ℚ → ℚ) (queryEmbedding : List ℚ)
    (embeddings : List (String × List ℚ)) : List (ℚ × String) :=
  embeddings.map fun p => (cos queryEmbedding p.2, p.1)

/-- The order used by Python's `sorted(scores, reverse=True)` on
`(score, name)` tuples: `p` comes no later than `q` when `p` is
lexicographically at least `q` (score first, then name; names compare by
code points, written here through `String.data`). -/
def pairGe (p q : ℚ × String) : Prop :=
  q.1 < p.1 ∨ (p.1 = q.1 ∧ q.2.data ≤ p.2.data)

instance : DecidableRel pairGe := fun p q =>
  inferInstanceAs (Decidable (q.1 < p.1 ∨ (p.1 = q.1 ∧ q.2.data ≤ p.2.data)))

/-- Python's `sorted(scores, reverse=True)`: a stable sort putting the
lexicographically greatest `(score, name)` tuples first. -/
def sortedScores (scores : List (ℚ × String)) : List (ℚ × String) :=
  scores.insertionSort pairGe

/-- The names of the top 3 entries of the descending sort, as in
`[name for score, name in sorted(scores, reverse=True)[:3]]`. -/
def top3Names (scores : List (ℚ × String)) : List String :=
  ((sortedScores scores).take 3).map (fun p => p.2)

/-- The retrieval step `retrieve_relevant_info(query)`: build both score
lists against the query embedding, take the top-3 names of each, and return
the dataset records whose name is among them. -/
def retrieve_relevant_info (encode : String → List ℚ) (cos : List ℚ → List ℚ → ℚ)
    (courses : List Course) (instructors : List Instructor) (query : String) :
    List Course × List Instructor :=
  let query_embedding := encode query
  let relevant_courses :=
    top3Names (scoreList cos query_embedding (course_embeddings encode courses))
  let relevant_instructors :=
    top3Names (scoreList cos query_embedding (instructor_embeddings encode instructors))
  (courses.filter fun c => relevant_courses.contains c.name,
   instructors.filter fun i => relevant_instructors.contains i.name)

/-- One course line of `format_context`. -/
def courseLine (c : Course) : String :=
  "- " ++ c.name ++ ": " ++ c.description ++ " (Instructor: " ++ c.instructor ++
    ", Duration: " ++ c.duration ++ ")\n"

/-- One instructor line of `format_context`. -/
def instructorLine (i : Instructor) : String :=
  "- " ++ i.name ++ ": " ++ i.bio ++ "\n"

/-- The context formatter `format_context(courses, instructors)`. -/
def format_context (courses : List Course) (instructors : List Instructor) : String :=
  let context := ""
  let context :=
    if courses.isEmpty then context
    else courses.foldl (fun s c => s ++ courseLine c) (context ++ "Relevant Courses:\n")
  let context :=
    if instructors.isEmpty then context
    else instructors.foldl (fun s i => s ++ instructorLine i)
      (context ++ "\nRelevant Instructors:\n")
  strip context

/-- The prompt builder `build_prompt_with_context(question, context,
conversation_history)`: header with the context, then every history message
except the first rendered as a `role: content` line, then the question. -/
def build_prompt_with_context (question context : String)
    (conversation_history : List Message) : String :=
  let prompt := "\n    Context information:\n    " ++ context ++
    "\n\n    Conversation history:\n    "
  let prompt := (conversation_history.drop 1).foldl
    (fun p m => p ++ (m.role ++ ": " ++ m.content ++ "\n")) prompt
  prompt ++ ("\n    Current question: " ++ question ++
    "\n    \n    Please provide a helpful response based on the context and conversation history.\n    ")

/-- The JSON body of `POST /api/query`: `{query: string, conversationId?: string}`. -/
structure QueryRequest where
  query : String
  conversationId : Option String
deriving DecidableEq, Repr

/-- The JSON body `{response: string}` returned by `/api/query` with HTTP success. -/
structure QueryResponse where
  response : String
deriving DecidableEq, Repr

/-- The JSON body of `POST /api/translate`:
`{text: string, target_lang?: string, conversationId?: string}`. -/
structure TranslateRequest where
  text : String
  target_lang : String
  conversationId : Option String
deriving DecidableEq, Repr

/-- The JSON body `{translation: string}` returned by `/api/translate` with HTTP success. -/
structure TranslateResponse where
  translation : String
deriving DecidableEq, Repr

/-- The server-side session: the `conversations` and `translations` keys of
`request.session`, each absent (`none`) until first initialized. -/
structure SessionData where
  conversations : Option (List (String × List Message))
  translations : Option (List (String × List TranslationRecord))
deriving DecidableEq, Repr

/-- Python's `data.conversationId or str(uuid.uuid4())`: the supplied id
unless it is missing or empty (falsy), in which case a fresh uuid. -/
def resolveConvId (given : Option String) (fresh : String) : String :=
  match given with
  | some s => if s = "" then fresh else s
  | none => fresh

/-- The system message that initializes every new conversation. -/
def initialSystemMessage : Message :=
  ⟨"system", "You are a helpful course enquiry assistant."⟩

/-- The placeholder answer built when the generative-model call raises. -/
def fallbackResponse (e : String) : String :=
  "I couldn't process that request. Please try again. (Error: " ++ e ++ ")"

/-- The `POST /api/query` handler: strips the query, resolves the
conversation id, answers the canned response on empty input, otherwise
initializes the conversation if needed, appends the user message, retrieves
context, builds the prompt, and calls the generative model; on success the
assistant message is appended, on failure the fallback string is returned.
Returns the updated session together with the JSON body. -/
def query (encode : String → List ℚ) (cos : List ℚ → List ℚ → ℚ)
    (generate : String → Except String String)
    (courses : List Course) (instructors : List Instructor)
    (session : SessionData) (data : QueryRequest) (freshId : String) :
    SessionData × QueryResponse :=
  let question := strip data.query
  let conversation_id := resolveConvId data.conversationId freshId
  if question = "" then (session, ⟨"Please enter a valid question."⟩)
  else
    let convs0 := session.conversations.getD []
    let convs1 :=
      if (dictGet convs0 conversation_id).isNone
      then dictSet convs0 conversation_id [initialSystemMessage]
      else convs0
    let hist1 := (dictGet convs1 conversation_id).getD []
    let convs2 := dictSet convs1 conversation_id (hist1 ++ [⟨"user", question⟩])
    let retrieved := retrieve_relevant_info encode cos courses instructors question
    let context := format_context retrieved.1 retrieved.2
    let prompt := build_prompt_with_context question context
      ((dictGet convs2 conversation_id).getD [])
    match generate prompt with
    | Except.ok text =>
        let response := strip text
        let hist2 := (dictGet convs2 conversation_id).getD []
        let convs3 := dictSet convs2 conversation_id (hist2 ++ [⟨"assistant", response⟩])
        ({ session with conversations := some convs3 }, ⟨response⟩)
    | Except.error e =>
        ({ session with conversations := some convs2 }, ⟨fallbackResponse e⟩)

/-- The fixed translation prompt template of `/api/translate`. -/
def translatePrompt (text target_lang : String) : String :=
  "\n        Translate the following English text to " ++ target_lang ++
    ". \n        Keep the meaning accurate but make the translation sound natural in the target language.\n        \n        Text to translate: " ++
    text ++ "\n        "

/-- The `POST /api/translate` handler: strips the text, answers the canned
response on empty input, otherwise calls the generative model on the
translation prompt; on success the translation record is appended to the
per-conversation list and the translation returned, on failure a textual
failure message is returned and the session is untouched. -/
def translate (generate : String → Except String String)
    (session : SessionData) (data : TranslateRequest) (freshId : String) :
    SessionData × TranslateResponse :=
  let text := strip data.text
  let target_lang := data.target_lang
  let conversation_id := resolveConvId data.conversationId freshId
  if text = "" then (session, ⟨"No text to translate"⟩)
  else
    match generate (translatePrompt text target_lang) with
    | Except.ok t =>
        let translation := strip t
        let trans0 := session.translations.getD []
        let trans1 :=
          if (dictGet trans0 conversation_id).isNone
          then dictSet trans0 conversation_id []
          else trans0
        let lst := (dictGet trans1 conversation_id).getD []
        let trans2 := dictSet trans1 conversation_id
          (lst ++ [⟨text, translation, target_lang⟩])
        ({ session with translations := some trans2 }, ⟨translation⟩)
    | Except.error e => (session, ⟨"Translation failed: " ++ e⟩)

/-- The messages of a conversation rendered as in the `for msg in
conversation_history[1:]` loop, one `role: content` line per message. -/
def renderHistory : List Message → String
  | [] => ""
  | m :: rest => (m.role ++ ": " ++ m.content ++ "\n") ++ renderHistory rest

instance : IsTotal (ℚ × String) pairGe where
  total p q := by
    rcases lt_trichotomy p.1 q.1 with h | h | h
    · exact Or.inr (Or.inl h)
    · rcases le_total q.2.data p.2.data with hle | hle
      · exact Or.inl (Or.inr ⟨h, hle⟩)
      · exact Or.inr (Or.inr ⟨h.symm, hle⟩)
    · exact Or.inl (Or.inl h)

instance : IsTrans (ℚ × String) pairGe where
  trans p q r hpq hqr := by
    rcases hpq with h1 | ⟨he1, hd1⟩
    · rcases hqr with h2 | ⟨he2, _⟩
      · exact Or.inl (h2.trans h1)
      · exact Or.inl (he2 ▸ h1)
    · rcases hqr with h2 | ⟨he2, hd2⟩
      · exact Or.inl (he1 ▸ h2)
      · exact Or.inr ⟨he1.trans he2, hd2.trans hd1⟩

theorem sortedScores_perm (scores : List (ℚ × String)) :
    (sortedScores scores).Perm scores :=
  List.perm_insertionSort pairGe scores

theorem sortedScores_pairwise (scores : List (ℚ × String)) :
    (sortedScores scores).Pairwise pairGe :=
  List.sorted_insertionSort pairGe scores

theorem dictGet_dictSet_self {α : Type} (d : List (String × α)) (k : String) (v : α) :
    dictGet (dictSet d k v) k = some v := by
  induction d with
  | nil => simp [dictSet, dictGet]
  | cons p rest ih =>
    obtain ⟨k2, v2⟩ := p
    by_cases h : k2 = k
    · simp [dictSet, dictGet, h]
    · simp [dictSet, dictGet, h, ih]

theorem foldl_renderHistory (l : List Message) (s : String) :
    l.foldl (fun p m => p ++ (m.role ++ ": " ++ m.content ++ "\n")) s =
      s ++ renderHistory l := by
  induction l generalizing s with
  | nil => simp [renderHistory]
  | cons m rest ih =>
    rw [List.foldl_cons, ih, renderHistory]
    simp [String.append_assoc]

theorem top3Names_length_le (scores : List (ℚ × String)) :
    (top3Names scores).length ≤ 3 := by
  simp only [top3Names, List.length_map, List.length_take]
  exact min_le_left _ _

theorem top3_names_sound (scores : List (ℚ × String)) (n : String)
    (hn : n ∈ top3Names scores) :
    ∃ s, (s, n) ∈ scores ∧
      scores.countP (fun p => decide (s < p.1)) ≤ 2 := by
  obtain ⟨p, hp, hpn⟩ := List.mem_map.mp hn
  refine ⟨p.1, ?_, ?_⟩
  · have hmem : p ∈ sortedScores scores :=
      (List.take_sublist 3 _).mem hp
    have hps : p ∈ scores := (sortedScores_perm scores).mem_iff.mp hmem
    rw [← hpn]
    simpa using hps
  · have hcount : scores.countP (fun q => decide (p.1 < q.1)) =
        (sortedScores scores).countP (fun q => decide (p.1 < q.1)) :=
      ((sortedScores_perm scores).countP_eq _).symm
    rw [hcount, ← List.take_append_drop 3 (sortedScores scores), List.countP_append]
    have hpair := sortedScores_pairwise scores
    rw [← List.take_append_drop 3 (sortedScores scores)] at hpair
    obtain ⟨-, -, hcross⟩ := List.pairwise_append.mp hpair
    have hdrop : ((sortedScores scores).drop 3).countP (fun q => decide (p.1 < q.1)) = 0 := by
      rw [List.countP_eq_zero]
      intro q hq
      have hge : pairGe p q := hcross p hp q hq
      rcases hge with h | ⟨he, -⟩
      · simpa using not_lt_of_lt h
      · simp [he]
    have htake : ((sortedScores scores).take 3).countP (fun q => decide (p.1 < q.1)) ≤ 2 := by
      have hlen : ((sortedScores scores).take 3).length ≤ 3 := by
        rw [List.length_take]; exact min_le_left _ _
      have hsplit := List.length_eq_countP_add_countP
        (fun q : ℚ × String => decide (p.1 < q.1)) ((sortedScores scores).take 3)
      have hpos : 0 < ((sortedScores scores).take 3).countP
          (fun q => decide ¬(decide (p.1 < q.1) = true)) := by
        rw [List.countP_pos_iff]
        exact ⟨p, hp, by simp⟩
      omega
    omega

theorem filter_by_names_length_le {α : Type} (records : List α) (nameOf : α → String)
    (names : List String) (hnodup : (records.map nameOf).Nodup) (hlen : names.length ≤ 3) :
    (records.filter fun r => names.contains (nameOf r)).length ≤ 3 := by
  set matched := records.filter fun r => names.contains (nameOf r) with hm
  have hsub : (matched.map nameOf).Sublist (records.map nameOf) :=
    (List.filter_sublist records).map nameOf
  have hnd : (matched.map nameOf).Nodup := hnodup.sublist hsub
  have hsubset : (matched.map nameOf) ⊆ names := by
    intro n hn
    obtain ⟨r, hr, rfl⟩ := List.mem_map.mp hn
    have := List.of_mem_filter hr
    simpa using this
  have := (hnd.subperm hsubset).length_le
  rw [List.length_map] at this
  omega

/-- The score-only ranking described by the spec sentence behind claim C5:
a stable descending sort that compares nothing but the similarity score, so
records with equal scores keep their original relative order. -/
def simGe (p q : ℚ × String) : Prop := q.1 ≤ p.1

instance : DecidableRel simGe := fun p q =>
  inferInstanceAs (Decidable (q.1 ≤ p.1))

/-- Ranking following the spec's words for claim C5 (stable order on ties),
to be compared with the source's `sortedScores`. -/
def sortedScoresStableBySim (scores : List (ℚ × String)) : List (ℚ × String) :=
  scores.insertionSort simGe

/-- C9: the records returned by `retrieve_relevant_info` are sublists of the
course and instructor datasets, so they appear in original dataset (JSON
file) order; the similarity ranking decides only membership, never the
output order. -/
theorem retrieve_preserves_dataset_order (encode : String → List ℚ)
    (cos : List ℚ → List ℚ → ℚ) (courses : List Course)
    (instructors : List Instructor) (q : String) :
    ((retrieve_relevant_info encode cos courses instructors q).1).Sublist courses ∧
    ((retrieve_relevant_info encode cos courses instructors q).2).Sublist instructors :=
  ⟨List.filter_sublist courses, List.filter_sublist instructors⟩

/-- C1 (amended): provided the dataset's course names are pairwise distinct
and its instructor names are pairwise distinct, `retrieve_relevant_info`
returns at most 3 course records and at most 3 instructor records, and every
returned record's name carries a score among the top-3 cosine-similarity
scores: at most 2 entries of the score list score strictly higher.  (Without
the distinctness proviso the record counts can exceed 3, see the
counterexample.) -/
theorem retrieve_top3_sound (encode : String → List ℚ) (cos : List ℚ → List ℚ → ℚ)
    (courses : List Course) (instructors : List Instructor) (q : String)
    (hc : (courses.map Course.name).Nodup)
    (hi : (instructors.map Instructor.name).Nodup) :
    (retrieve_relevant_info encode cos courses instructors q).1.length ≤ 3 ∧
    (retrieve_relevant_info encode cos courses instructors q).2.length ≤ 3 ∧
    (∀ c ∈ (retrieve_relevant_info encode cos courses instructors q).1,
      ∃ s, (s, c.name) ∈ scoreList cos (encode q) (course_embeddings encode courses) ∧
        (scoreList cos (encode q) (course_embeddings encode courses)).countP
          (fun p => decide (s < p.1)) ≤ 2) ∧
    (∀ i ∈ (retrieve_relevant_info encode cos courses instructors q).2,
      ∃ s, (s, i.name) ∈ scoreList cos (encode q) (instructor_embeddings encode instructors) ∧
        (scoreList cos (encode q) (instructor_embeddings encode instructors)).countP
          (fun p => decide (s < p.1)) ≤ 2) := by
  refine ⟨?_, ?_, ?_, ?_⟩
  · exact filter_by_names_length_le courses Course.name _ hc (top3Names_length_le _)
  · exact filter_by_names_length_le instructors Instructor.name _ hi (top3Names_length_le _)
  · intro c hmem
    have h' := List.of_mem_filter hmem
    have hn : c.name ∈ top3Names (scoreList cos (encode q) (course_embeddings encode courses)) := by
      simpa using h'
    exact top3_names_sound _ _ hn
  · intro i hmem
    have h' := List.of_mem_filter hmem
    have hn : i.name ∈ top3Names (scoreList cos (encode q) (instructor_embeddings encode instructors)) := by
      simpa using h'
    exact top3_names_sound _ _ hn

/-- C1 witness: the amended statement at a concrete dataset of two courses
and one instructor. -/
theorem retrieve_top3_sound_witness :
    (([⟨"Python", "intro", "Ann", "4 weeks"⟩,
       ⟨"Lean", "proofs", "Bob", "6 weeks"⟩] : List Course).map Course.name).Nodup ∧
    (([⟨"Ann", "teaches Python"⟩] : List Instructor).map Instructor.name).Nodup ∧
    ((retrieve_relevant_info (fun _ => [1]) (fun _ _ => 1)
        [⟨"Python", "intro", "Ann", "4 weeks"⟩, ⟨"Lean", "proofs", "Bob", "6 weeks"⟩]
        [⟨"Ann", "teaches Python"⟩] "hello").1.length ≤ 3 ∧
      (retrieve_relevant_info (fun _ => [1]) (fun _ _ => 1)
        [⟨"Python", "intro", "Ann", "4 weeks"⟩, ⟨"Lean", "proofs", "Bob", "6 weeks"⟩]
        [⟨"Ann", "teaches Python"⟩] "hello").2.length ≤ 3 ∧
      (∀ c ∈ (retrieve_relevant_info (fun _ => [1]) (fun _ _ => 1)
          [⟨"Python", "intro", "Ann", "4 weeks"⟩, ⟨"Lean", "proofs", "Bob", "6 weeks"⟩]
          [⟨"Ann", "teaches Python"⟩] "hello").1,
        ∃ s, (s, c.name) ∈ scoreList (fun _ _ => 1) ((fun _ => ([1] : List ℚ)) "hello")
            (course_embeddings (fun _ => [1])
              [⟨"Python", "intro", "Ann", "4 weeks"⟩, ⟨"Lean", "proofs", "Bob", "6 weeks"⟩]) ∧
          (scoreList (fun _ _ => 1) ((fun _ => ([1] : List ℚ)) "hello")
            (course_embeddings (fun _ => [1])
              [⟨"Python", "intro", "Ann", "4 weeks"⟩, ⟨"Lean", "proofs", "Bob", "6 weeks"⟩])).countP
            (fun p => decide (s < p.1)) ≤ 2) ∧
      (∀ i ∈ (retrieve_relevant_info (fun _ => [1]) (fun _ _ => 1)
          [⟨"Python", "intro", "Ann", "4 weeks"⟩, ⟨"Lean", "proofs", "Bob", "6 weeks"⟩]
          [⟨"Ann", "teaches Python"⟩] "hello").2,
        ∃ s, (s, i.name) ∈ scoreList (fun _ _ => 1) ((fun _ => ([1] : List ℚ)) "hello")
            (instructor_embeddings (fun _ => [1]) [⟨"Ann", "teaches Python"⟩]) ∧
          (scoreList (fun _ _ => 1) ((fun _ => ([1] : List ℚ)) "hello")
            (instructor_embeddings (fun _ => [1]) [⟨"Ann", "teaches Python"⟩])).countP
            (fun p => decide (s < p.1)) ≤ 2)) :=
  ⟨by decide, by decide,
    retrieve_top3_sound (fun _ => [1]) (fun _ _ => 1)
      [⟨"Python", "intro", "Ann", "4 weeks"⟩, ⟨"Lean", "proofs", "Bob", "6 weeks"⟩]
      [⟨"Ann", "teaches Python"⟩] "hello" (by decide) (by decide)⟩

/-- C1 counterexample: the claim bounds the returned records by 3 for every
dataset, but with four courses sharing the name "Machine Learning" the top-3
name list contains that one name and the final filter returns all four
records. -/
theorem retrieve_duplicate_names_counterexample :
    ¬ ((retrieve_relevant_info (fun _ => []) (fun _ _ => 0)
        [⟨"Machine Learning", "a", "i1", "4"⟩, ⟨"Machine Learning", "b", "i2", "5"⟩,
         ⟨"Machine Learning", "c", "i3", "6"⟩, ⟨"Machine Learning", "d", "i4", "7"⟩]
        [] "machine learning").1.length ≤ 3) := by decide

/-- C5 (amended): the ranking built by `sorted(scores, reverse=True)` is a
permutation of the score list ordered by the reverse lexicographic order on
the whole `(score, name)` tuple, so records with equal scores are ordered by
name in descending code-point order, not by their original (dataset
insertion) position. -/
theorem sortedScores_tiebreak_by_name (scores : List (ℚ × String)) :
    (sortedScores scores).Perm scores ∧
    (sortedScores scores).Pairwise
      (fun p q => q.1 < p.1 ∨ (p.1 = q.1 ∧ q.2.data ≤ p.2.data)) :=
  ⟨sortedScores_perm scores, sortedScores_pairwise scores⟩

/-- C5 counterexample: four courses whose embeddings all score 0 against the
query.  The source ranking orders the tied records by name descending
(Gamma, Delta, Beta, Alpha); the stable score-only sort the claim describes
keeps insertion order (Alpha, Beta, Gamma, Delta), and the two disagree, so
the first dataset record "Alpha" is dropped from the top 3 by the code while
the claim's policy would keep it. -/
theorem sortedScores_tiebreak_counterexample :
    sortedScores (scoreList (fun _ _ => 0) ((fun _ => ([] : List ℚ)) "tie")
        (course_embeddings (fun _ => [])
          [⟨"Alpha", "a", "i", "1"⟩, ⟨"Beta", "b", "i", "2"⟩,
           ⟨"Gamma", "c", "i", "3"⟩, ⟨"Delta", "d", "i", "4"⟩])) =
      [(0, "Gamma"), (0, "Delta"), (0, "Beta"), (0, "Alpha")] ∧
    sortedScoresStableBySim (scoreList (fun _ _ => 0) ((fun _ => ([] : List ℚ)) "tie")
        (course_embeddings (fun _ => [])
          [⟨"Alpha", "a", "i", "1"⟩, ⟨"Beta", "b", "i", "2"⟩,
           ⟨"Gamma", "c", "i", "3"⟩, ⟨"Delta", "d", "i", "4"⟩])) =
      [(0, "Alpha"), (0, "Beta"), (0, "Gamma"), (0, "Delta")] ∧
    (retrieve_relevant_info (fun _ => []) (fun _ _ => 0)
        [⟨"Alpha", "a", "i", "1"⟩, ⟨"Beta", "b", "i", "2"⟩,
         ⟨"Gamma", "c", "i", "3"⟩, ⟨"Delta", "d", "i", "4"⟩] [] "tie").1.map Course.name =
      ["Beta", "Gamma", "Delta"] := by decide

/-- C6: the prompt is exactly the context header holding the context block,
then every history message except the first rendered as a `role: content`
line in history order, then the current question and the closing
instruction; the initial (system) message is never rendered. -/
theorem build_prompt_with_context_decomposition (q ctx : String) (h : List Message) :
    build_prompt_with_context q ctx h =
      "\n    Context information:\n    " ++ ctx ++ "\n\n    Conversation history:\n    " ++
        renderHistory (h.drop 1) ++
        ("\n    Current question: " ++ q ++
          "\n    \n    Please provide a helpful response based on the context and conversation history.\n    ") := by
  simp only [build_prompt_with_context]
  rw [foldl_renderHistory]

theorem fallbackResponse_contains_error (e : String) :
    ∃ a b, fallbackResponse e = a ++ "Error" ++ b :=
  ⟨"I couldn't process that request. Please try again. (", ": " ++ (e ++ ")"), rfl⟩

/-- C4: a `/api/query` request whose query strips to the empty string gets
exactly the canned body, and the session — hence every conversation history —
is returned untouched; the result does not depend on the encoder, the
datasets or the generative model, which captures that neither retrieval nor
the model client is invoked. -/
theorem query_empty_input (encode : String → List ℚ) (cos : List ℚ → List ℚ → ℚ)
    (generate : String → Except String String) (courses : List Course)
    (instructors : List Instructor) (session : SessionData) (data : QueryRequest)
    (freshId : String) (h : strip data.query = "") :
    query encode cos generate courses instructors session data freshId =
      (session, ⟨"Please enter a valid question."⟩) := by
  simp only [query, h, if_pos]

/-- C4 witness: a whitespace-only query against an empty session. -/
theorem query_empty_input_witness :
    strip "   " = "" ∧
    query (fun _ => []) (fun _ _ => 0) (fun _ => Except.error "down") [] []
        ⟨none, none⟩ ⟨"   ", none⟩ "fresh" =
      (⟨none, none⟩, ⟨"Please enter a valid question."⟩) :=
  ⟨by decide, query_empty_input (fun _ => []) (fun _ _ => 0) (fun _ => Except.error "down")
    [] [] ⟨none, none⟩ ⟨"   ", none⟩ "fresh" (by decide)⟩

/-- C2: when the generative-model call raises, `/api/query` still returns its
normal JSON body (the handler is total, an HTTP success), the response string
contains the indicator `Error`, and the conversation history for the resolved
conversation id ends as its previous value (or the fresh `[system]` history)
extended by exactly the user message — no assistant message. -/
theorem query_generation_failure
    (encode : String → List ℚ) (cos : List ℚ → List ℚ → ℚ) (f : String → String)
    (courses : List Course) (instructors : List Instructor)
    (session : SessionData) (data : QueryRequest) (freshId : String)
    (h : strip data.query ≠ "") :
    (∃ a b, (query encode cos (fun p => Except.error (f p)) courses instructors
        session data freshId).2.response = a ++ "Error" ++ b) ∧
    dictGet ((query encode cos (fun p => Except.error (f p)) courses instructors
          session data freshId).1.conversations.getD [])
        (resolveConvId data.conversationId freshId) =
      some ((dictGet (session.conversations.getD [])
            (resolveConvId data.conversationId freshId)).getD [initialSystemMessage] ++
          [⟨"user", strip data.query⟩]) := by
  simp only [query, if_neg h]
  constructor
  · exact fallbackResponse_contains_error _
  · cases hg : dictGet (session.conversations.getD [])
        (resolveConvId data.conversationId freshId) with
    | none => simp [hg, dictGet_dictSet_self]
    | some hist => simp [hg, dictGet_dictSet_self]

/-- C2 witness: a failing model call on the query "hi" with a fresh session. -/
theorem query_generation_failure_witness :
    strip "hi" ≠ "" ∧
    ((∃ a b, (query (fun _ => []) (fun _ _ => 0) (fun p => Except.error ((fun _ => "boom") p))
        [] [] ⟨none, none⟩ ⟨"hi", some "c1"⟩ "fresh").2.response = a ++ "Error" ++ b) ∧
      dictGet ((query (fun _ => []) (fun _ _ => 0) (fun p => Except.error ((fun _ => "boom") p))
            [] [] ⟨none, none⟩ ⟨"hi", some "c1"⟩ "fresh").1.conversations.getD [])
          (resolveConvId (some "c1") "fresh") =
        some ((dictGet ((⟨none, none⟩ : SessionData).conversations.getD [])
              (resolveConvId (some "c1") "fresh")).getD [initialSystemMessage] ++
            [⟨"user", strip "hi"⟩])) :=
  ⟨by decide, query_generation_failure (fun _ => []) (fun _ _ => 0) (fun _ => "boom")
    [] [] ⟨none, none⟩ ⟨"hi", some "c1"⟩ "fresh" (by decide)⟩

theorem query_ok_history (encode : String → List ℚ) (cos : List ℚ → List ℚ → ℚ)
    (g : String → String) (courses : List Course) (instructors : List Instructor)
    (session : SessionData) (data : QueryRequest) (freshId : String)
    (h : strip data.query ≠ "") :
    ∃ r, dictGet ((query encode cos (fun p => Except.ok (g p)) courses instructors
          session data freshId).1.conversations.getD [])
        (resolveConvId data.conversationId freshId) =
      some ((dictGet (session.conversations.getD [])
            (resolveConvId data.conversationId freshId)).getD [initialSystemMessage] ++
          [⟨"user", strip data.query⟩, ⟨"assistant", r⟩]) := by
  simp only [query, if_neg h]
  cases hg : dictGet (session.conversations.getD [])
      (resolveConvId data.conversationId freshId) with
  | none => simp [hg, dictGet_dictSet_self]
  | some hist => simp [hg, dictGet_dictSet_self]

/-- C3: two `/api/query` calls with the same non-empty conversation id, both
with non-empty queries against an always-succeeding model, starting from a
session in which that conversation does not yet exist, leave the
conversation history as the initial system message followed by, in order,
first user question, first assistant response, second user question, second
assistant response. -/
theorem query_two_calls_history
    (encode : String → List ℚ) (cos : List ℚ → List ℚ → ℚ) (g : String → String)
    (courses : List Course) (instructors : List Instructor)
    (s0 : SessionData) (cid q1 q2 freshId1 freshId2 : String)
    (hcid : cid ≠ "")
    (h0 : dictGet (s0.conversations.getD []) cid = none)
    (h1 : strip q1 ≠ "") (h2 : strip q2 ≠ "") :
    ∃ r1 r2, dictGet
        ((query encode cos (fun p => Except.ok (g p)) courses instructors
            (query encode cos (fun p => Except.ok (g p)) courses instructors
              s0 ⟨q1, some cid⟩ freshId1).1
            ⟨q2, some cid⟩ freshId2).1.conversations.getD []) cid =
      some [initialSystemMessage, ⟨"user", strip q1⟩, ⟨"assistant", r1⟩,
            ⟨"user", strip q2⟩, ⟨"assistant", r2⟩] := by
  have hres1 : resolveConvId (some cid) freshId1 = cid := by simp [resolveConvId, hcid]
  have hres2 : resolveConvId (some cid) freshId2 = cid := by simp [resolveConvId, hcid]
  obtain ⟨r1, hr1⟩ :=
    query_ok_history encode cos g courses instructors s0 ⟨q1, some cid⟩ freshId1 h1
  rw [hres1, h0] at hr1
  obtain ⟨r2, hr2⟩ := query_ok_history encode cos g courses instructors
    (query encode cos (fun p => Except.ok (g p)) courses instructors s0
      ⟨q1, some cid⟩ freshId1).1
    ⟨q2, some cid⟩ freshId2 h2
  rw [hres2, hr1] at hr2
  exact ⟨r1, r2, by simpa using hr2⟩

/-- C3 witness: two concrete calls on conversation id "c1" with the model
echoing "ok". -/
theorem query_two_calls_history_witness :
    ("c1" : String) ≠ "" ∧
    dictGet ((⟨none, none⟩ : SessionData).conversations.getD []) "c1" = none ∧
    strip "first question" ≠ "" ∧
    strip "second question" ≠ "" ∧
    (∃ r1 r2, dictGet
        ((query (fun _ => []) (fun _ _ => 0) (fun p => Except.ok ((fun _ => "ok") p)) [] []
            (query (fun _ => []) (fun _ _ => 0) (fun p => Except.ok ((fun _ => "ok") p)) [] []
              ⟨none, none⟩ ⟨"first question", some "c1"⟩ "f1").1
            ⟨"second question", some "c1"⟩ "f2").1.conversations.getD []) "c1" =
      some [initialSystemMessage, ⟨"user", strip "first question"⟩, ⟨"assistant", r1⟩,
            ⟨"user", strip "second question"⟩, ⟨"assistant", r2⟩]) :=
  ⟨by decide, by decide, by decide, by decide,
    query_two_calls_history (fun _ => []) (fun _ _ => 0) (fun _ => "ok") [] []
      ⟨none, none⟩ "c1" "first question" "second question" "f1" "f2"
      (by decide) (by decide) (by decide) (by decide)⟩

/-- C7: a `/api/translate` request whose text strips to the empty string gets
exactly the canned body, with the session untouched and the result
independent of the generative model, capturing that the model is not
invoked. -/
theorem translate_empty_text (generate : String → Except String String)
    (session : SessionData) (data : TranslateRequest) (freshId : String)
    (h : strip data.text = "") :
    translate generate session data freshId = (session, ⟨"No text to translate"⟩) := by
  simp only [translate, h, if_pos]

/-- C7 witness: an empty text field. -/
theorem translate_empty_text_witness :
    strip "" = "" ∧
    translate (fun _ => Except.error "down") ⟨none, none⟩ ⟨"", "es", none⟩ "fresh" =
      (⟨none, none⟩, ⟨"No text to translate"⟩) :=
  ⟨by decide, translate_empty_text (fun _ => Except.error "down") ⟨none, none⟩
    ⟨"", "es", none⟩ "fresh" (by decide)⟩

/-- C8: when the generative-model call raises on a non-empty text,
`/api/translate` still returns its normal JSON body (the handler is total,
an HTTP success) whose translation field is the textual failure message
carrying the exception text. -/
theorem translate_generation_failure (f : String → String) (session : SessionData)
    (data : TranslateRequest) (freshId : String) (h : strip data.text ≠ "") :
    (translate (fun p => Except.error (f p)) session data freshId).2 =
      ⟨"Translation failed: " ++ f (translatePrompt (strip data.text) data.target_lang)⟩ := by
  simp only [translate, if_neg h]

/-- C8 witness: a failing model call on the text "hola". -/
theorem translate_generation_failure_witness :
    strip "hola" ≠ "" ∧
    (translate (fun p => Except.error ((fun _ => "boom") p)) ⟨none, none⟩
        ⟨"hola", "es", none⟩ "fresh").2 =
      ⟨"Translation failed: " ++ "boom"⟩ :=
  ⟨by decide, translate_generation_failure (fun _ => "boom") ⟨none, none⟩
    ⟨"hola", "es", none⟩ "fresh" (by decide)⟩

/-- C10: on a failing generative-model call `/api/translate` leaves the whole
session — in particular the translations state — unchanged, and on a
successful call with non-empty text the per-conversation translations list
gains exactly the record of original text, stripped translation and target
language. -/
theorem translate_records_only_on_success (g f : String → String) (session : SessionData)
    (data : TranslateRequest) (freshId : String) :
    (translate (fun p => Except.error (f p)) session data freshId).1 = session ∧
    (strip data.text ≠ "" →
      dictGet ((translate (fun p => Except.ok (g p)) session data freshId).1.translations.getD [])
          (resolveConvId data.conversationId freshId) =
        some ((dictGet (session.translations.getD [])
              (resolveConvId data.conversationId freshId)).getD [] ++
            [⟨strip data.text, strip (g (translatePrompt (strip data.text) data.target_lang)),
              data.target_lang⟩])) := by
  constructor
  · by_cases h : strip data.text = ""
    · simp only [translate, h, if_pos]
    · simp only [translate, if_neg h]
  · intro h
    simp only [translate, if_neg h]
    cases hg : dictGet (session.translations.getD [])
        (resolveConvId data.conversationId freshId) with
    | none => simp [hg, dictGet_dictSet_self]
    | some lst => simp [hg, dictGet_dictSet_self]

/-- C10 witness: the failing call leaves the session unchanged and the
succeeding call appends the one record, at concrete inputs. -/
theorem translate_records_only_on_success_witness :
    (translate (fun p => Except.error ((fun _ => "boom") p)) ⟨none, none⟩
        ⟨"hello", "fr", some "c9"⟩ "fresh").1 = ⟨none, none⟩ ∧
    dictGet ((translate (fun p => Except.ok ((fun _ => " bonjour ") p)) ⟨none, none⟩
          ⟨"hello", "fr", some "c9"⟩ "fresh").1.translations.getD [])
        (resolveConvId (some "c9") "fresh") =
      some ((dictGet ((⟨none, none⟩ : SessionData).translations.getD [])
            (resolveConvId (some "c9") "fresh")).getD [] ++
          [⟨strip "hello", strip ((fun _ => " bonjour ") (translatePrompt (strip "hello") "fr")),
            "fr"⟩]) :=
  ⟨(translate_records_only_on_success (fun _ => " bonjour ") (fun _ => "boom")
      ⟨none, none⟩ ⟨"hello", "fr", some "c9"⟩ "fresh").1,
   (translate_records_only_on_success (fun _ => " bonjour ") (fun _ => "boom")
      ⟨none, none⟩ ⟨"hello", "fr", some "c9"⟩ "fresh").2 (by decide)⟩

end App
